import Mathlib

/-!
Verification of the post-EEG photovoltaic comparison calculator
(`posteeg_app.py`). The computational core — tariff conversion,
self-consumption allocation, the four variant evaluators, payback,
the best-variant aggregation and the cash-flow series — is embedded
below over ℚ, following the source line by line; the presentation
layer (Streamlit widgets, formatting, HTML) is out of scope.
-/

namespace Posteeg

/-- `euro_per_kwh_from_cent(cent) = cent / 100.0`. -/
def euro_per_kwh_from_cent (cent : ℚ) : ℚ := cent / 100

/-- `clamp(x, lo, hi) = max(lo, min(hi, x))`. -/
def clamp (x lo hi : ℚ) : ℚ := max lo (min hi x)

/-- Self-consumption allocator: clamp the target percentage to [0,100],
take that fraction of generation, cap by consumption. -/
def compute_self_consumed_kwh (generation_kwh consumption_kwh self_pct : ℚ) : ℚ :=
  let p := clamp self_pct 0 100
  let target_self := generation_kwh * (p / 100)
  min target_self consumption_kwh

/-- Payback period: 0 when `invest <= 0`; the `None` sentinel when
`annual_cashflow <= 0`; otherwise `invest / annual_cashflow`. -/
def payback_years (invest annual_cashflow : ℚ) : Option ℚ :=
  if invest ≤ 0 then some 0
  else if annual_cashflow ≤ 0 then none
  else some (invest / annual_cashflow)

/-- The `Result` dataclass: one record per variant. -/
structure Result where
  name : String
  invest_eur : ℚ
  annual_cashflow_eur : ℚ
  total_10y_eur : ℚ
  total_20y_eur : ℚ
  payback_years : Option ℚ
deriving DecidableEq, Repr

/-- Variant 1: continued full feed-in at the market reference price. -/
def variant1_full_feed_in (generation_kwh market_value_cent : ℚ) : Result :=
  let mv := euro_per_kwh_from_cent market_value_cent
  let annual := generation_kwh * mv
  let invest : ℚ := 0
  { name := "V1 Volleinspeisung (Marktwert)"
    invest_eur := invest
    annual_cashflow_eur := annual
    total_10y_eur := 10 * annual
    total_20y_eur := 20 * annual
    payback_years := payback_years invest annual }

/-- Variants 2/3: self-consumption at retail price, remainder exported
at the market price. -/
def variant_self_consumption (name : String)
    (generation_kwh consumption_kwh self_pct invest_eur retail_cent export_cent : ℚ) :
    Result :=
  let retail := euro_per_kwh_from_cent retail_cent
  let export_price := euro_per_kwh_from_cent export_cent
  let self_kwh := compute_self_consumed_kwh generation_kwh consumption_kwh self_pct
  let export_kwh := max 0 (generation_kwh - self_kwh)
  let annual := self_kwh * retail + export_kwh * export_price
  { name := name
    invest_eur := invest_eur
    annual_cashflow_eur := annual
    total_10y_eur := -invest_eur + 10 * annual
    total_20y_eur := -invest_eur + 20 * annual
    payback_years := payback_years invest_eur annual }

/-- Variant 4: decommission and new system; self-consumption at retail,
export at the fixed EEG tariff. -/
def variant4_new_system
    (new_generation_kwh consumption_kwh self_pct invest_eur retail_cent eeg_cent : ℚ) :
    Result :=
  let retail := euro_per_kwh_from_cent retail_cent
  let eeg := euro_per_kwh_from_cent eeg_cent
  let self_kwh := compute_self_consumed_kwh new_generation_kwh consumption_kwh self_pct
  let export_kwh := max 0 (new_generation_kwh - self_kwh)
  let annual := self_kwh * retail + export_kwh * eeg
  { name := "V4 Neuanlage (EEG + EV)"
    invest_eur := invest_eur
    annual_cashflow_eur := annual
    total_10y_eur := -invest_eur + 10 * annual
    total_20y_eur := -invest_eur + 20 * annual
    payback_years := payback_years invest_eur annual }

/-- Python's `max(results, key=lambda x: x.total_20y_eur)` on a nonempty
list: fold left, replacing the accumulator only on a strictly greater key,
so the first maximal element wins. -/
def max_by_total20 (r : Result) (rs : List Result) : Result :=
  rs.foldl (fun acc x => if acc.total_20y_eur < x.total_20y_eur then x else acc) r

/-- `best_20 = max(results, key=lambda x: x.total_20y_eur)` with
`results = [r1, r2, r3, r4]`. -/
def best_20 (r1 r2 r3 r4 : Result) : Result :=
  max_by_total20 r1 [r2, r3, r4]

/-- `years = list(range(0, 21))`. -/
def years : List ℕ := List.range 21

/-- `cashflow_curve(invest, annual) = [(-invest + annual * y) for y in years]`. -/
def cashflow_curve (invest annual : ℚ) : List ℚ :=
  years.map (fun y : ℕ => -invest + annual * (y : ℚ))

/-- The clamped percentage lies in [0, 100]. -/
theorem clamp01_bounds (pct : ℚ) : 0 ≤ clamp pct 0 100 ∧ clamp pct 0 100 ≤ 100 :=
  ⟨le_max_left _ _, max_le (by norm_num) (min_le_left _ _)⟩

/-- The allocated self-consumption never exceeds generation (for
nonnegative generation). -/
theorem self_consumed_le_generation (g c pct : ℚ) (hg : 0 ≤ g) :
    compute_self_consumed_kwh g c pct ≤ g := by
  unfold compute_self_consumed_kwh
  have h := clamp01_bounds pct
  calc min (g * (clamp pct 0 100 / 100)) c ≤ g * (clamp pct 0 100 / 100) :=
        min_le_left _ _
    _ ≤ g * 1 := by
        apply mul_le_mul_of_nonneg_left _ hg
        rw [div_le_one (by norm_num : (0:ℚ) < 100)]
        exact h.2
    _ = g := mul_one g

/-- The allocated self-consumption is nonnegative (for nonnegative
generation and consumption). -/
theorem self_consumed_nonneg (g c pct : ℚ) (hg : 0 ≤ g) (hc : 0 ≤ c) :
    0 ≤ compute_self_consumed_kwh g c pct := by
  unfold compute_self_consumed_kwh
  have h := clamp01_bounds pct
  exact le_min (mul_nonneg hg (div_nonneg h.1 (by norm_num))) hc

/-- C1: every variant evaluator builds its `Result` with
`total_10y_eur = -invest_eur + 10 * annual_cashflow_eur` and
`total_20y_eur = -invest_eur + 20 * annual_cashflow_eur`, exactly. -/
theorem totals_linear_all_variants
    (nm : String) (g mv c pct inv retail expc gnew eeg inv4 : ℚ) :
    ((variant1_full_feed_in g mv).total_10y_eur =
      -(variant1_full_feed_in g mv).invest_eur +
        10 * (variant1_full_feed_in g mv).annual_cashflow_eur) ∧
    ((variant1_full_feed_in g mv).total_20y_eur =
      -(variant1_full_feed_in g mv).invest_eur +
        20 * (variant1_full_feed_in g mv).annual_cashflow_eur) ∧
    ((variant_self_consumption nm g c pct inv retail expc).total_10y_eur =
      -(variant_self_consumption nm g c pct inv retail expc).invest_eur +
        10 * (variant_self_consumption nm g c pct inv retail expc).annual_cashflow_eur) ∧
    ((variant_self_consumption nm g c pct inv retail expc).total_20y_eur =
      -(variant_self_consumption nm g c pct inv retail expc).invest_eur +
        20 * (variant_self_consumption nm g c pct inv retail expc).annual_cashflow_eur) ∧
    ((variant4_new_system gnew c pct inv4 retail eeg).total_10y_eur =
      -(variant4_new_system gnew c pct inv4 retail eeg).invest_eur +
        10 * (variant4_new_system gnew c pct inv4 retail eeg).annual_cashflow_eur) ∧
    ((variant4_new_system gnew c pct inv4 retail eeg).total_20y_eur =
      -(variant4_new_system gnew c pct inv4 retail eeg).invest_eur +
        20 * (variant4_new_system gnew c pct inv4 retail eeg).annual_cashflow_eur) := by
  refine ⟨?_, ?_, ?_, ?_, ?_, ?_⟩ <;>
    simp [variant1_full_feed_in, variant_self_consumption, variant4_new_system]

/-- C2: `payback_years` returns 0 when `invest ≤ 0`, the `None` sentinel
when `invest > 0` and `annual ≤ 0`, and `invest / annual` when both are
positive. -/
theorem payback_years_spec (invest annual : ℚ) :
    (invest ≤ 0 → payback_years invest annual = some 0) ∧
    (0 < invest → annual ≤ 0 → payback_years invest annual = none) ∧
    (0 < invest → 0 < annual → payback_years invest annual = some (invest / annual)) := by
  unfold payback_years
  refine ⟨fun h => by simp [h], fun h1 h2 => ?_, fun h1 h2 => ?_⟩ <;>
    split_ifs <;> first | rfl | linarith

/-- Witness for C2: all three branches evaluated at concrete inputs. -/
theorem payback_years_spec_witness :
    payback_years 0 5 = some 0 ∧ payback_years 3 0 = none ∧ payback_years 4 2 = some 2 := by
  refine ⟨(payback_years_spec 0 5).1 (by norm_num),
          (payback_years_spec 3 0).2.1 (by norm_num) (by norm_num), ?_⟩
  have h := (payback_years_spec 4 2).2.2 (by norm_num) (by norm_num)
  rw [h]
  norm_num

/-- C3: for nonnegative generation and consumption and a percentage in
[0,100], the allocator returns at most `consumption`, at most
`generation * pct / 100`, and hence at most `generation`. -/
theorem allocate_bounds (g c pct : ℚ) (hg : 0 ≤ g) (hc : 0 ≤ c)
    (h0 : 0 ≤ pct) (h1 : pct ≤ 100) :
    compute_self_consumed_kwh g c pct ≤ c ∧
    compute_self_consumed_kwh g c pct ≤ g * pct / 100 ∧
    compute_self_consumed_kwh g c pct ≤ g := by
  refine ⟨?_, ?_, self_consumed_le_generation g c pct hg⟩
  · exact min_le_right _ _
  · unfold compute_self_consumed_kwh clamp
    rw [min_eq_right h1, max_eq_right h0, mul_div_assoc]
    exact min_le_left _ _

/-- Witness for C3: the bounds at generation 4500, consumption 4000,
percentage 30. -/
theorem allocate_bounds_witness :
    compute_self_consumed_kwh 4500 4000 30 ≤ 4000 ∧
    compute_self_consumed_kwh 4500 4000 30 ≤ 4500 * 30 / 100 ∧
    compute_self_consumed_kwh 4500 4000 30 ≤ 4500 :=
  allocate_bounds 4500 4000 30 (by norm_num) (by norm_num) (by norm_num) (by norm_num)

/-- C6: out-of-range percentages are clamped, not rejected: the allocator
agrees with itself at the clamped percentage, and in particular
`allocate(1000, 1000, 150) = allocate(1000, 1000, 100)`. -/
theorem allocate_clamps_pct (g c pct : ℚ) :
    compute_self_consumed_kwh g c pct = compute_self_consumed_kwh g c (clamp pct 0 100) ∧
    compute_self_consumed_kwh 1000 1000 150 = compute_self_consumed_kwh 1000 1000 100 := by
  constructor
  · have h := clamp01_bounds pct
    unfold compute_self_consumed_kwh
    have hid : clamp (clamp pct 0 100) 0 100 = clamp pct 0 100 := by
      unfold clamp
      rw [min_eq_right (max_le (by norm_num) (min_le_left _ _)),
        max_eq_right (le_max_left _ _)]
    rw [hid]
  · unfold compute_self_consumed_kwh clamp
    norm_num

/-- C7: for nonnegative generation and consumption and any percentage,
`generation - self_consumed` is already nonnegative, so the defensive
`max(0, ...)` clamp is inactive, and the exported quantity the evaluators
use is nonnegative. -/
theorem exported_nonneg (g c pct : ℚ) (hg : 0 ≤ g) (hc : 0 ≤ c) :
    0 ≤ g - compute_self_consumed_kwh g c pct ∧
    max 0 (g - compute_self_consumed_kwh g c pct) = g - compute_self_consumed_kwh g c pct ∧
    0 ≤ max 0 (g - compute_self_consumed_kwh g c pct) := by
  have hle := self_consumed_le_generation g c pct hg
  have h0 : 0 ≤ g - compute_self_consumed_kwh g c pct := by linarith
  exact ⟨h0, max_eq_right h0, le_max_left _ _⟩

/-- Witness for C7: exported energy at generation 4500, consumption 4000,
percentage 30. -/
theorem exported_nonneg_witness :
    0 ≤ (4500:ℚ) - compute_self_consumed_kwh 4500 4000 30 ∧
    max 0 ((4500:ℚ) - compute_self_consumed_kwh 4500 4000 30) =
      4500 - compute_self_consumed_kwh 4500 4000 30 ∧
    0 ≤ max 0 ((4500:ℚ) - compute_self_consumed_kwh 4500 4000 30) :=
  exported_nonneg 4500 4000 30 (by norm_num) (by norm_num)

/-- A sample `Result` with the given 20-year total, for concrete checks. -/
def sampleResult (t : ℚ) : Result :=
  { name := "r", invest_eur := 0, annual_cashflow_eur := 0,
    total_10y_eur := 0, total_20y_eur := t, payback_years := none }

/-- C4: `best_20` attains the maximum `total_20y_eur` among the four
results, and on exact ties the first result in evaluation order
(V1, V2, V3, V4) is selected: whenever `vi` is the first maximum,
`best_20` returns `vi`. -/
theorem best_20_spec (v1 v2 v3 v4 : Result) :
    ((best_20 v1 v2 v3 v4 = v1 ∨ best_20 v1 v2 v3 v4 = v2 ∨
        best_20 v1 v2 v3 v4 = v3 ∨ best_20 v1 v2 v3 v4 = v4) ∧
      v1.total_20y_eur ≤ (best_20 v1 v2 v3 v4).total_20y_eur ∧
      v2.total_20y_eur ≤ (best_20 v1 v2 v3 v4).total_20y_eur ∧
      v3.total_20y_eur ≤ (best_20 v1 v2 v3 v4).total_20y_eur ∧
      v4.total_20y_eur ≤ (best_20 v1 v2 v3 v4).total_20y_eur) ∧
    (v2.total_20y_eur ≤ v1.total_20y_eur → v3.total_20y_eur ≤ v1.total_20y_eur →
      v4.total_20y_eur ≤ v1.total_20y_eur → best_20 v1 v2 v3 v4 = v1) ∧
    (v1.total_20y_eur < v2.total_20y_eur → v3.total_20y_eur ≤ v2.total_20y_eur →
      v4.total_20y_eur ≤ v2.total_20y_eur → best_20 v1 v2 v3 v4 = v2) ∧
    (v1.total_20y_eur < v3.total_20y_eur → v2.total_20y_eur < v3.total_20y_eur →
      v4.total_20y_eur ≤ v3.total_20y_eur → best_20 v1 v2 v3 v4 = v3) ∧
    (v1.total_20y_eur < v4.total_20y_eur → v2.total_20y_eur < v4.total_20y_eur →
      v3.total_20y_eur < v4.total_20y_eur → best_20 v1 v2 v3 v4 = v4) := by
  unfold best_20 max_by_total20
  simp only [List.foldl_cons, List.foldl_nil]
  split_ifs <;>
    refine ⟨⟨?_, ?_, ?_, ?_, ?_⟩,
      fun a b c => ?_, fun a b c => ?_, fun a b c => ?_, fun a b c => ?_⟩ <;>
    first
      | rfl
      | linarith
      | (exfalso; linarith)
      | tauto

/-- Witness for C4: with a tie on 20-year totals between the first two
results, the first one (evaluation order) is selected. -/
theorem best_20_spec_witness :
    best_20 (sampleResult 5) (sampleResult 5) (sampleResult 3) (sampleResult 1) =
      sampleResult 5 :=
  (best_20_spec (sampleResult 5) (sampleResult 5) (sampleResult 3) (sampleResult 1)).2.1
    (by norm_num [sampleResult]) (by norm_num [sampleResult]) (by norm_num [sampleResult])

/-- C5: the cash-flow series has 21 points (years 0..20), the value at
year `y` is `-invest + annual * y`, and in particular the value at
year 0 is `-invest`. -/
theorem cashflow_curve_spec (invest annual : ℚ) :
    (cashflow_curve invest annual).length = 21 ∧
    (∀ y : ℕ, ∀ h : y < (cashflow_curve invest annual).length,
      (cashflow_curve invest annual)[y] = -invest + annual * y) ∧
    (∀ h : 0 < (cashflow_curve invest annual).length,
      (cashflow_curve invest annual)[0] = -invest) := by
  refine ⟨by simp only [cashflow_curve, years, List.length_map, List.length_range],
    fun y h => ?_, fun h => ?_⟩
  · simp only [cashflow_curve, years] at h ⊢
    rw [List.getElem_map, List.getElem_range]
  · simp only [cashflow_curve, years] at h ⊢
    rw [List.getElem_map, List.getElem_range]
    norm_num

/-- Witness for C5: the series for invest 100, annual 7 has 21 points,
starts at −100, and has value −93 at year 1. -/
theorem cashflow_curve_spec_witness :
    (cashflow_curve 100 7).length = 21 ∧
    (cashflow_curve 100 7)[0] = -100 ∧
    (cashflow_curve 100 7)[1] = -100 + 7 * 1 := by
  have h := cashflow_curve_spec 100 7
  have hlen : (0:ℕ) < (cashflow_curve 100 7).length := by rw [h.1]; norm_num
  have hlen1 : (1:ℕ) < (cashflow_curve 100 7).length := by rw [h.1]; norm_num
  refine ⟨h.1, h.2.2 hlen, ?_⟩
  have h1 := h.2.1 1 hlen1
  simpa using h1

/-- `payback_years` is the `None` sentinel exactly when the investment is
positive and the annual cash flow nonpositive. -/
theorem payback_years_none_iff (i a : ℚ) :
    payback_years i a = none ↔ 0 < i ∧ a ≤ 0 := by
  unfold payback_years
  split_ifs with h1 h2
  · exact ⟨fun h => by simp at h, fun h => absurd h1 (not_le.mpr h.1)⟩
  · exact ⟨fun _ => ⟨by linarith, h2⟩, fun _ => rfl⟩
  · exact ⟨fun h => by simp at h, fun h => absurd h.2 h2⟩

/-- C8: Variant 1 always has zero investment, annual cash flow
`generation * (market_cent / 100)` and payback 0; at generation 4500 kWh
and market value 3.5 ct this gives annual 157.5, invest 0, payback 0 and
a 20-year total of 3150. -/
theorem variant1_spec (g mv : ℚ) :
    (variant1_full_feed_in g mv).invest_eur = 0 ∧
    (variant1_full_feed_in g mv).annual_cashflow_eur = g * (mv / 100) ∧
    (variant1_full_feed_in g mv).payback_years = some 0 ∧
    (variant1_full_feed_in 4500 3.5).annual_cashflow_eur = 157.5 ∧
    (variant1_full_feed_in 4500 3.5).invest_eur = 0 ∧
    (variant1_full_feed_in 4500 3.5).payback_years = some 0 ∧
    (variant1_full_feed_in 4500 3.5).total_20y_eur = 3150 := by
  refine ⟨rfl, rfl, ?_, by norm_num [variant1_full_feed_in, euro_per_kwh_from_cent], rfl,
    ?_, by norm_num [variant1_full_feed_in, euro_per_kwh_from_cent]⟩ <;>
    simp [variant1_full_feed_in, payback_years]

/-- C9: in the scenario generation 4500, consumption 4000, target 30%,
retail 32 ct, export 3.5 ct, the evaluator computes self-consumption 1350,
export 3150, and annual cash flow 1350·0.32 + 3150·0.035 = 432 + 110.25
= 542.25. -/
theorem variant2_scenario (nm : String) (inv : ℚ) :
    compute_self_consumed_kwh 4500 4000 30 = 1350 ∧
    max 0 ((4500:ℚ) - compute_self_consumed_kwh 4500 4000 30) = 3150 ∧
    (variant_self_consumption nm 4500 4000 30 inv 32 3.5).annual_cashflow_eur =
      1350 * 0.32 + 3150 * 0.035 ∧
    (1350 * 0.32 + 3150 * 0.035 : ℚ) = 432 + 110.25 ∧
    (432 + 110.25 : ℚ) = 542.25 := by
  have h1 : compute_self_consumed_kwh 4500 4000 30 = 1350 := by
    unfold compute_self_consumed_kwh clamp
    rw [min_eq_right (by norm_num : (30:ℚ) ≤ 100), max_eq_right (by norm_num : (0:ℚ) ≤ 30)]
    rw [min_eq_left (by norm_num)]
    norm_num
  have h2 : max 0 ((4500:ℚ) - compute_self_consumed_kwh 4500 4000 30) = 3150 := by
    rw [h1, max_eq_right (by norm_num)]
    norm_num
  refine ⟨h1, h2, ?_, by norm_num, by norm_num⟩
  show compute_self_consumed_kwh 4500 4000 30 * euro_per_kwh_from_cent 32 +
      max 0 ((4500:ℚ) - compute_self_consumed_kwh 4500 4000 30) *
        euro_per_kwh_from_cent 3.5 = 1350 * 0.32 + 3150 * 0.035
  rw [h2, h1]
  unfold euro_per_kwh_from_cent
  norm_num

/-- C10: for nonnegative inputs every evaluator yields a nonnegative
annual cash flow, its payback is the `None` sentinel only when the annual
cash flow is exactly 0 with a positive investment, and the 20-year total
is at least `-invest_eur`. -/
theorem variant_outputs_nonneg
    (nm : String) (g c pct mv inv retail expc gnew pct4 eeg inv4 : ℚ)
    (hg : 0 ≤ g) (hc : 0 ≤ c) (hpct : 0 ≤ pct) (hmv : 0 ≤ mv)
    (hinv : 0 ≤ inv) (hretail : 0 ≤ retail) (hexp : 0 ≤ expc)
    (hgnew : 0 ≤ gnew) (hpct4 : 0 ≤ pct4) (heeg : 0 ≤ eeg) (hinv4 : 0 ≤ inv4) :
    (0 ≤ (variant1_full_feed_in g mv).annual_cashflow_eur ∧
      ((variant1_full_feed_in g mv).payback_years = none →
        (variant1_full_feed_in g mv).annual_cashflow_eur = 0 ∧
          0 < (variant1_full_feed_in g mv).invest_eur) ∧
      -(variant1_full_feed_in g mv).invest_eur ≤ (variant1_full_feed_in g mv).total_20y_eur) ∧
    (0 ≤ (variant_self_consumption nm g c pct inv retail expc).annual_cashflow_eur ∧
      ((variant_self_consumption nm g c pct inv retail expc).payback_years = none →
        (variant_self_consumption nm g c pct inv retail expc).annual_cashflow_eur = 0 ∧
          0 < (variant_self_consumption nm g c pct inv retail expc).invest_eur) ∧
      -(variant_self_consumption nm g c pct inv retail expc).invest_eur ≤
        (variant_self_consumption nm g c pct inv retail expc).total_20y_eur) ∧
    (0 ≤ (variant4_new_system gnew c pct4 inv4 retail eeg).annual_cashflow_eur ∧
      ((variant4_new_system gnew c pct4 inv4 retail eeg).payback_years = none →
        (variant4_new_system gnew c pct4 inv4 retail eeg).annual_cashflow_eur = 0 ∧
          0 < (variant4_new_system gnew c pct4 inv4 retail eeg).invest_eur) ∧
      -(variant4_new_system gnew c pct4 inv4 retail eeg).invest_eur ≤
        (variant4_new_system gnew c pct4 inv4 retail eeg).total_20y_eur) := by
  have h100 : (0:ℚ) ≤ 100 := by norm_num
  have hann1 : 0 ≤ g * (mv / 100) := mul_nonneg hg (div_nonneg hmv h100)
  have hself2 := self_consumed_nonneg g c pct hg hc
  have hexp2 : 0 ≤ max 0 (g - compute_self_consumed_kwh g c pct) := le_max_left _ _
  have hann2 : 0 ≤ compute_self_consumed_kwh g c pct * (retail / 100) +
      max 0 (g - compute_self_consumed_kwh g c pct) * (expc / 100) :=
    add_nonneg (mul_nonneg hself2 (div_nonneg hretail h100))
      (mul_nonneg hexp2 (div_nonneg hexp h100))
  have hself4 := self_consumed_nonneg gnew c pct4 hgnew hc
  have hexp4 : 0 ≤ max 0 (gnew - compute_self_consumed_kwh gnew c pct4) := le_max_left _ _
  have hann4 : 0 ≤ compute_self_consumed_kwh gnew c pct4 * (retail / 100) +
      max 0 (gnew - compute_self_consumed_kwh gnew c pct4) * (eeg / 100) :=
    add_nonneg (mul_nonneg hself4 (div_nonneg hretail h100))
      (mul_nonneg hexp4 (div_nonneg heeg h100))
  simp only [variant1_full_feed_in, variant_self_consumption, variant4_new_system,
    euro_per_kwh_from_cent]
  refine ⟨⟨hann1, fun hnone => ?_, by linarith⟩,
          ⟨hann2, fun hnone => ?_, by linarith⟩,
          ⟨hann4, fun hnone => ?_, by linarith⟩⟩
  · rw [payback_years_none_iff] at hnone
    exact absurd hnone.1 (by norm_num)
  · rw [payback_years_none_iff] at hnone
    exact ⟨le_antisymm hnone.2 hann2, hnone.1⟩
  · rw [payback_years_none_iff] at hnone
    exact ⟨le_antisymm hnone.2 hann4, hnone.1⟩

/-- Witness for C10: nonnegative annual cash flows at the app's default
inputs. -/
theorem variant_outputs_nonneg_witness :
    0 ≤ (variant1_full_feed_in 4500 3.5).annual_cashflow_eur ∧
    0 ≤ (variant_self_consumption "V2" 4500 4000 30 1200 32 3.5).annual_cashflow_eur ∧
    0 ≤ (variant4_new_system 7000 4000 35 16000 32 8).annual_cashflow_eur := by
  have h := variant_outputs_nonneg "V2" 4500 4000 30 3.5 1200 32 3.5 7000 35 8 16000
    (by norm_num) (by norm_num) (by norm_num) (by norm_num) (by norm_num) (by norm_num)
    (by norm_num) (by norm_num) (by norm_num) (by norm_num) (by norm_num)
  exact ⟨h.1.1, h.2.1.1, h.2.2.1⟩

end Posteeg
